import Mathlib

/-!
Verification of the garmin-api-wrapper service (src/garmin-api-wrapper/app.py),
a small Flask facade over the upstream Garmin client.

Shallow embedding. The upstream client is an opaque capability: each endpoint
takes the outcome the upstream operation would produce as a function argument
(an oracle). Exceptions raised by upstream calls are modelled as `Except.error`
with the exception message, or as `Option.none` for the download call inside
the retry loop. Wall-clock time is a `Nat` parameter `now` passed to each
request; `time.sleep` is recorded as accumulated seconds in `totalSleep`.
The module-global mutable state (`api`, `last_init_time`) is the explicit
`ServerState` threaded through every handler.
-/

namespace GarminWrapper

/-- Outcome the upstream `Garmin(...).login()` sequence would produce if it
were attempted now: a fresh authenticated client handle (opaque, a `Nat` id),
or an exception. -/
inductive LoginResult where
  | success (handle : Nat)
  | failure
deriving Repr, DecidableEq

/-- The module-global mutable state of app.py: `api` (the cached client
handle, `None` initially) and `last_init_time` (seconds, 0 initially). -/
structure ServerState where
  api : Option Nat
  last_init_time : Nat
deriving Repr, DecidableEq

/-- `init_retry_interval = 60  # seconds` -/
def init_retry_interval : Nat := 60

/-- Result of one call to `init_api`: the returned handle (possibly
`None`), the global state after the call, and whether an upstream login
was attempted during the call. -/
structure InitResult where
  handle : Option Nat
  state : ServerState
  loginAttempted : Bool
deriving Repr, DecidableEq

/-- The body of the `try` block of `init_api`: construct a client and log
in; on success overwrite `api` and `last_init_time`; on exception return
the (unchanged) global `api`. -/
def attemptLogin (s : ServerState) (now : Nat) (login : LoginResult) : InitResult :=
  match login with
  | .success h => ⟨some h, ⟨some h, now⟩, true⟩
  | .failure => ⟨s.api, s, true⟩

/-- `init_api()` of app.py. If a handle is cached and less than
`init_retry_interval` seconds have passed since `last_init_time`, return it
without contacting upstream; otherwise attempt a login. `time.time()` is
sampled as the single parameter `now`. With `Nat` truncated subtraction,
`now - last_init_time < 60` agrees with the Python float comparison even
when `now` is earlier than the stored timestamp (both sides answer true). -/
def init_api (s : ServerState) (now : Nat) (login : LoginResult) : InitResult :=
  match s.api with
  | some h =>
    if now - s.last_init_time < init_retry_interval then ⟨some h, s, false⟩
    else attemptLogin s now login
  | none => attemptLogin s now login

/-- HTTP response as observed on the wire: a JSON payload with a status, a
JSON object of the shape produced by jsonify with an error key, or a
binary attachment produced by send_file. -/
inductive Response (α : Type) where
  | json (body : α) (status : Nat)
  | error (msg : String) (status : Nat)
  | file (data : List Nat) (downloadName : String) (status : Nat)
deriving Repr, DecidableEq

/-- Body of the fixed connectivity error: jsonify of a Failed to connect
message with status 500, returned by every data endpoint when `init_api`
yields no handle. -/
def connectError : String := "Failed to connect to Garmin API"

/-- Error message returned by the download endpoint after the retry loop
exhausts all attempts. -/
def downloadFailedError : String := "Activity download failed after 3 attempts"

/-- Message of the 400 response of /stats when the date parameter is
missing (original text quotes the word date; quotes omitted here). -/
def missingDateError : String := "A date query parameter is required in YYYY-MM-DD format."

/-- Result of a data endpoint call: the HTTP response, the global state
after the call, whether an upstream login was attempted, and how many
upstream data-fetch calls were made. -/
structure EndpointResult (α : Type) where
  response : Response α
  state : ServerState
  loginAttempted : Bool
  dataCalls : Nat
deriving Repr, DecidableEq

/-- Numeric value of a list of decimal digit characters. -/
def digitsVal (cs : List Char) : Nat :=
  cs.foldl (fun acc c => acc * 10 + (c.toNat - 48)) 0

/-- Characters of `s` with surrounding whitespace stripped. -/
def stripChars (s : String) : List Char :=
  ((s.toList.dropWhile Char.isWhitespace).reverse.dropWhile Char.isWhitespace).reverse

/-- Python `int(str)` conversion as used by the Werkzeug type=int argument
parser: optional surrounding whitespace, optional sign, decimal digits;
anything else fails. -/
def pyInt (s : String) : Option Int :=
  match stripChars s with
  | [] => none
  | c :: rest =>
    if c = '-' ∨ c = '+' then
      if rest ≠ [] ∧ rest.all Char.isDigit then
        if c = '-' then some (-(digitsVal rest : Int)) else some ((digitsVal rest : Int))
      else none
    else
      if (c :: rest).all Char.isDigit then some ((digitsVal (c :: rest) : Int)) else none

/-- Werkzeug `request.args.get(key, default=d, type=int)`: absent key or
failed conversion silently yield the default. -/
def argGetInt (param : Option String) (default : Int) : Int :=
  match param with
  | none => default
  | some v => (pyInt v).getD default

/-- `get_stats` of app.py. `dateParam` is `request.args.get('date')`
(`none` when absent); Python treats the empty string as falsy, so it is
rejected like an absent parameter. `stats` is the upstream
`api.get_stats(date)` oracle. -/
def get_stats {α : Type} (dateParam : Option String) (s : ServerState) (now : Nat)
    (login : LoginResult) (stats : String → Except String α) : EndpointResult α :=
  match dateParam with
  | none => ⟨.error missingDateError 400, s, false, 0⟩
  | some d =>
    if d = "" then ⟨.error missingDateError 400, s, false, 0⟩
    else
      let r := init_api s now login
      match r.handle with
      | none => ⟨.error connectError 500, r.state, r.loginAttempted, 0⟩
      | some _ =>
        match stats d with
        | .ok body => ⟨.json body 200, r.state, r.loginAttempted, 1⟩
        | .error e => ⟨.error e 500, r.state, r.loginAttempted, 1⟩

/-- `get_activities` of app.py. `startParam` and `limitParam` are the raw
query strings; `acts` is the upstream `api.get_activities(start, limit)`
oracle. -/
def get_activities {α : Type} (startParam limitParam : Option String) (s : ServerState)
    (now : Nat) (login : LoginResult) (acts : Int → Int → Except String α) :
    EndpointResult α :=
  let start := argGetInt startParam 0
  let limit := argGetInt limitParam 10
  let r := init_api s now login
  match r.handle with
  | none => ⟨.error connectError 500, r.state, r.loginAttempted, 0⟩
  | some _ =>
    match acts start limit with
    | .ok body => ⟨.json body 200, r.state, r.loginAttempted, 1⟩
    | .error e => ⟨.error e 500, r.state, r.loginAttempted, 1⟩

/-- `get_activity_details` of app.py: pass-through of
`api.get_activity(activity_id)`. -/
def get_activity_details {α : Type} (activity_id : String) (s : ServerState) (now : Nat)
    (login : LoginResult) (getActivity : String → Except String α) : EndpointResult α :=
  let r := init_api s now login
  match r.handle with
  | none => ⟨.error connectError 500, r.state, r.loginAttempted, 0⟩
  | some _ =>
    match getActivity activity_id with
    | .ok body => ⟨.json body 200, r.state, r.loginAttempted, 1⟩
    | .error e => ⟨.error e 500, r.state, r.loginAttempted, 1⟩

/-- Outcome of the download retry loop: the value of `file_data` after the
loop, total seconds slept, and number of upstream download calls made. -/
structure RetryOutcome where
  file_data : Option (List Nat)
  totalSleep : Nat
  calls : Nat
deriving Repr, DecidableEq

/-- Body of `for attempt in range(3)` in `download_activity`, iterating
over the list of attempt indices: call the download; on success break; on
exception sleep `2 ** attempt` seconds and continue. -/
def retryGo (dl : Nat → Option (List Nat)) : List Nat → RetryOutcome
  | [] => ⟨none, 0, 0⟩
  | attempt :: rest =>
    match dl attempt with
    | some d => ⟨some d, 0, 1⟩
    | none =>
      let r := retryGo dl rest
      ⟨r.file_data, 2 ^ attempt + r.totalSleep, r.calls + 1⟩

/-- The full retry loop `for attempt in range(3)`. -/
def downloadRetry (dl : Nat → Option (List Nat)) : RetryOutcome :=
  retryGo dl (List.range 3)

/-- Result of the download endpoint: the response (a binary attachment on
success), the state after the call, whether a login was attempted, number
of upstream download calls, and total seconds spent in `time.sleep`. -/
structure DownloadResult where
  response : Response Unit
  state : ServerState
  loginAttempted : Bool
  downloadCalls : Nat
  totalSleep : Nat
deriving Repr, DecidableEq

/-- `download_activity` of app.py. `fmtParam` is
`request.args.get('format', 'fit')`; `dl` gives the outcome of the
upstream `api.download_activity` call at each attempt index (`none` for an
exception). After the loop, `file_data is None` yields the distinct
download-failure error; otherwise send_file returns the bytes as an
attachment named `activity_{id}.{format}`. -/
def download_activity (activity_id : String) (fmtParam : Option String) (s : ServerState)
    (now : Nat) (login : LoginResult) (dl : Nat → Option (List Nat)) : DownloadResult :=
  let r := init_api s now login
  match r.handle with
  | none => ⟨.error connectError 500, r.state, r.loginAttempted, 0, 0⟩
  | some _ =>
    let fmt := fmtParam.getD "fit"
    let ro := downloadRetry dl
    match ro.file_data with
    | none =>
      ⟨.error downloadFailedError 500, r.state, r.loginAttempted, ro.calls, ro.totalSleep⟩
    | some d =>
      ⟨.file d ("activity_" ++ activity_id ++ "." ++ fmt) 200,
        r.state, r.loginAttempted, ro.calls, ro.totalSleep⟩

/-- JSON body of the /health response. -/
structure HealthBody where
  status : String
  auth_status : String
  service : String
deriving Repr, DecidableEq

/-- Result of the health endpoint. -/
structure HealthResult where
  response : Response HealthBody
  state : ServerState
  loginAttempted : Bool
deriving Repr, DecidableEq

/-- `health_check` of app.py: if a handle is cached report
healthy/authenticated; otherwise call `init_api` and report
healthy/reauthenticated (200) or unhealthy/unauthenticated (503)
according to the global `api` after the call. -/
def health_check (s : ServerState) (now : Nat) (login : LoginResult) : HealthResult :=
  match s.api with
  | some _ => ⟨.json ⟨"healthy", "authenticated", "garmin-api"⟩ 200, s, false⟩
  | none =>
    let r := init_api s now login
    match r.state.api with
    | some _ => ⟨.json ⟨"healthy", "reauthenticated", "garmin-api"⟩ 200, r.state, r.loginAttempted⟩
    | none => ⟨.json ⟨"unhealthy", "unauthenticated", "garmin-api"⟩ 503, r.state, r.loginAttempted⟩

/-- One inbound HTTP request to the service, bundled with the outcomes the
upstream client would produce while handling it. -/
inductive Request (α : Type) where
  | stats (dateParam : Option String) (now : Nat) (login : LoginResult)
      (statsFn : String → Except String α)
  | activities (startParam limitParam : Option String) (now : Nat) (login : LoginResult)
      (actsFn : Int → Int → Except String α)
  | detail (activity_id : String) (now : Nat) (login : LoginResult)
      (detailFn : String → Except String α)
  | download (activity_id : String) (fmtParam : Option String) (now : Nat)
      (login : LoginResult) (dl : Nat → Option (List Nat))
  | health (now : Nat) (login : LoginResult)

/-- Global state of the process after handling one request. -/
def stepState {α : Type} (s : ServerState) : Request α → ServerState
  | .stats d now login f => (get_stats d s now login f).state
  | .activities sp lp now login f => (get_activities sp lp s now login f).state
  | .detail aid now login f => (get_activity_details aid s now login f).state
  | .download aid fmtParam now login dl => (download_activity aid fmtParam s now login dl).state
  | .health now login => (health_check s now login).state

/-- Global state of the process after handling a sequence of requests. -/
def runRequests {α : Type} (s : ServerState) (reqs : List (Request α)) : ServerState :=
  reqs.foldl stepState s

/-- Whether a response is, on the wire, the connectivity error response:
the Failed to connect body with status 500. -/
def isConnectErrorResponse {α : Type} : Response α → Bool
  | .error msg status => msg == connectError && status == 500
  | _ => false

/-- Whether handling the given request in state `s` yields the
connectivity error response. -/
def requestConnectError {α : Type} (s : ServerState) : Request α → Bool
  | .stats d now login f => isConnectErrorResponse (get_stats d s now login f).response
  | .activities sp lp now login f =>
      isConnectErrorResponse (get_activities sp lp s now login f).response
  | .detail aid now login f =>
      isConnectErrorResponse (get_activity_details aid s now login f).response
  | .download aid fmtParam now login dl =>
      isConnectErrorResponse (download_activity aid fmtParam s now login dl).response
  | .health now login => isConnectErrorResponse (health_check s now login).response

/-- The upstream operations of the request never raise with exactly the
text of the connectivity error message. -/
def upstreamAvoidsConnectMsg {α : Type} : Request α → Prop
  | .stats _ _ _ f => ∀ x, f x ≠ .error connectError
  | .activities _ _ _ _ f => ∀ x y, f x y ≠ .error connectError
  | .detail _ _ _ f => ∀ x, f x ≠ .error connectError
  | .download _ _ _ _ _ => True
  | .health _ _ => True

/-! ## Helper lemmas -/

lemma range3_eq : List.range 3 = [0, 1, 2] := rfl

lemma downloadRetry_first (dl : Nat → Option (List Nat)) (d : List Nat)
    (h0 : dl 0 = some d) : downloadRetry dl = ⟨some d, 0, 1⟩ := by
  simp [downloadRetry, range3_eq, retryGo, h0]

lemma downloadRetry_second (dl : Nat → Option (List Nat)) (d : List Nat)
    (h0 : dl 0 = none) (h1 : dl 1 = some d) : downloadRetry dl = ⟨some d, 1, 2⟩ := by
  simp [downloadRetry, range3_eq, retryGo, h0, h1]

lemma downloadRetry_third (dl : Nat → Option (List Nat)) (d : List Nat)
    (h0 : dl 0 = none) (h1 : dl 1 = none) (h2 : dl 2 = some d) :
    downloadRetry dl = ⟨some d, 3, 3⟩ := by
  simp [downloadRetry, range3_eq, retryGo, h0, h1, h2]

lemma downloadRetry_exhausted (dl : Nat → Option (List Nat))
    (h0 : dl 0 = none) (h1 : dl 1 = none) (h2 : dl 2 = none) :
    downloadRetry dl = ⟨none, 7, 3⟩ := by
  simp [downloadRetry, range3_eq, retryGo, h0, h1, h2]

lemma init_api_handle_isSome (s : ServerState) (now : Nat) (login : LoginResult)
    (h : s.api.isSome) : (init_api s now login).handle.isSome := by
  obtain ⟨a, ha⟩ := Option.isSome_iff_exists.mp h
  cases login <;> simp [init_api, attemptLogin, ha] <;> split <;> simp [ha]

lemma init_api_state_isSome (s : ServerState) (now : Nat) (login : LoginResult)
    (h : s.api.isSome) : (init_api s now login).state.api.isSome := by
  obtain ⟨a, ha⟩ := Option.isSome_iff_exists.mp h
  cases login <;> simp [init_api, attemptLogin, ha] <;> split <;> simp [ha]

lemma download_activity_success (activity_id : String) (fmtParam : Option String)
    (s : ServerState) (now : Nat) (login : LoginResult) (dl : Nat → Option (List Nat))
    (hdl : Nat) (d : List Nat) (hh : (init_api s now login).handle = some hdl)
    (hd : (downloadRetry dl).file_data = some d) :
    download_activity activity_id fmtParam s now login dl =
      ⟨.file d ("activity_" ++ activity_id ++ "." ++ fmtParam.getD "fit") 200,
        (init_api s now login).state, (init_api s now login).loginAttempted,
        (downloadRetry dl).calls, (downloadRetry dl).totalSleep⟩ := by
  simp [download_activity, hh, hd]

lemma download_activity_failed (activity_id : String) (fmtParam : Option String)
    (s : ServerState) (now : Nat) (login : LoginResult) (dl : Nat → Option (List Nat))
    (hdl : Nat) (hh : (init_api s now login).handle = some hdl)
    (hd : (downloadRetry dl).file_data = none) :
    download_activity activity_id fmtParam s now login dl =
      ⟨.error downloadFailedError 500,
        (init_api s now login).state, (init_api s now login).loginAttempted,
        (downloadRetry dl).calls, (downloadRetry dl).totalSleep⟩ := by
  simp [download_activity, hh, hd]

lemma get_stats_state_cases {α : Type} (d : Option String) (s : ServerState) (now : Nat)
    (login : LoginResult) (f : String → Except String α) :
    (get_stats d s now login f).state = s
    ∨ (get_stats d s now login f).state = (init_api s now login).state := by
  cases d with
  | none => left; rfl
  | some d' =>
    by_cases hd : d' = ""
    · left
      simp [get_stats, hd]
    · right
      simp only [get_stats, if_neg hd]
      split
      · rfl
      · split <;> rfl

lemma get_activities_state_eq {α : Type} (sp lp : Option String) (s : ServerState)
    (now : Nat) (login : LoginResult) (f : Int → Int → Except String α) :
    (get_activities sp lp s now login f).state = (init_api s now login).state := by
  simp only [get_activities]
  split
  · rfl
  · split <;> rfl

lemma get_activity_details_state_eq {α : Type} (aid : String) (s : ServerState)
    (now : Nat) (login : LoginResult) (f : String → Except String α) :
    (get_activity_details aid s now login f).state = (init_api s now login).state := by
  simp only [get_activity_details]
  split
  · rfl
  · split <;> rfl

lemma download_activity_state_eq (aid : String) (fmtParam : Option String)
    (s : ServerState) (now : Nat) (login : LoginResult) (dl : Nat → Option (List Nat)) :
    (download_activity aid fmtParam s now login dl).state = (init_api s now login).state := by
  simp only [download_activity]
  split
  · rfl
  · split <;> rfl

lemma health_check_state_cases (s : ServerState) (now : Nat) (login : LoginResult) :
    (health_check s now login).state = s
    ∨ (health_check s now login).state = (init_api s now login).state := by
  cases hs : s.api with
  | some h =>
    left
    simp [health_check, hs]
  | none =>
    right
    simp only [health_check, hs]
    split <;> rfl

lemma stepState_isSome {α : Type} (s : ServerState) (req : Request α)
    (h : s.api.isSome) : (stepState s req).api.isSome := by
  cases req with
  | stats d now login f =>
    simp only [stepState]
    rcases get_stats_state_cases d s now login f with he | he <;> rw [he]
    · exact h
    · exact init_api_state_isSome s now login h
  | activities sp lp now login f =>
    simp only [stepState]
    rw [get_activities_state_eq]
    exact init_api_state_isSome s now login h
  | detail aid now login f =>
    simp only [stepState]
    rw [get_activity_details_state_eq]
    exact init_api_state_isSome s now login h
  | download aid fmtParam now login dl =>
    simp only [stepState]
    rw [download_activity_state_eq]
    exact init_api_state_isSome s now login h
  | health now login =>
    simp only [stepState]
    rcases health_check_state_cases s now login with he | he <;> rw [he]
    · exact h
    · exact init_api_state_isSome s now login h

lemma runRequests_isSome {α : Type} (s : ServerState) (reqs : List (Request α))
    (h : s.api.isSome) : (runRequests s reqs).api.isSome := by
  induction reqs generalizing s with
  | nil => exact h
  | cons r rs ih => exact ih (stepState s r) (stepState_isSome s r h)

lemma isConnectErrorResponse_error_ne {α : Type} (e : String) (st : Nat)
    (he : e ≠ connectError) :
    isConnectErrorResponse (Response.error e st : Response α) = false := by
  have hbe : (e == connectError) = false := by
    cases hb : (e == connectError) with
    | false => rfl
    | true => exact absurd (eq_of_beq hb) he
  simp [isConnectErrorResponse, hbe]

lemma requestConnectError_false {α : Type} (s : ServerState) (req : Request α)
    (h : s.api.isSome) (hup : upstreamAvoidsConnectMsg req) :
    requestConnectError s req = false := by
  cases req with
  | stats d now login f =>
    obtain ⟨hdl, hh⟩ := Option.isSome_iff_exists.mp (init_api_handle_isSome s now login h)
    simp only [requestConnectError]
    cases d with
    | none => simp [get_stats, isConnectErrorResponse]
    | some d' =>
      by_cases hd : d' = ""
      · simp [get_stats, hd, isConnectErrorResponse]
      · cases hf : f d' with
        | ok body => simp [get_stats, hd, hh, hf, isConnectErrorResponse]
        | error e =>
          have he : e ≠ connectError := by
            intro heq
            exact hup d' (by rw [hf, heq])
          simp only [get_stats, if_neg hd, hh, hf]
          exact isConnectErrorResponse_error_ne e 500 he
  | activities sp lp now login f =>
    obtain ⟨hdl, hh⟩ := Option.isSome_iff_exists.mp (init_api_handle_isSome s now login h)
    simp only [requestConnectError]
    cases hf : f (argGetInt sp 0) (argGetInt lp 10) with
    | ok body => simp [get_activities, hh, hf, isConnectErrorResponse]
    | error e =>
      have he : e ≠ connectError := by
        intro heq
        exact hup (argGetInt sp 0) (argGetInt lp 10) (by rw [hf, heq])
      simp only [get_activities, hh, hf]
      exact isConnectErrorResponse_error_ne e 500 he
  | detail aid now login f =>
    obtain ⟨hdl, hh⟩ := Option.isSome_iff_exists.mp (init_api_handle_isSome s now login h)
    simp only [requestConnectError]
    cases hf : f aid with
    | ok body => simp [get_activity_details, hh, hf, isConnectErrorResponse]
    | error e =>
      have he : e ≠ connectError := by
        intro heq
        exact hup aid (by rw [hf, heq])
      simp only [get_activity_details, hh, hf]
      exact isConnectErrorResponse_error_ne e 500 he
  | download aid fmtParam now login dl =>
    obtain ⟨hdl, hh⟩ := Option.isSome_iff_exists.mp (init_api_handle_isSome s now login h)
    simp only [requestConnectError]
    cases hfd : (downloadRetry dl).file_data with
    | none =>
      rw [download_activity_failed aid fmtParam s now login dl hdl hh hfd]
      exact isConnectErrorResponse_error_ne downloadFailedError 500 (by decide)
    | some d =>
      rw [download_activity_success aid fmtParam s now login dl hdl d hh hfd]
      rfl
  | health now login =>
    simp only [requestConnectError]
    cases hs : s.api with
    | some hdl => simp [health_check, hs, isConnectErrorResponse]
    | none =>
      simp only [health_check, hs]
      split <;> rfl

/-! ## Claim theorems -/

/-- C4: starting from a state where one login has just succeeded (at time
`t0`), two acquisitions within the 60-second cache interval return the
cached handle with zero further login attempts and leave the state
untouched, and an acquisition after the interval has elapsed triggers a
new login attempt. -/
theorem init_api_session_reuse (s0 : ServerState) (h t0 t1 t2 t3 : Nat)
    (l1 l2 l3 : LoginResult)
    (hw1 : t1 - t0 < init_retry_interval) (hw2 : t2 - t0 < init_retry_interval)
    (hw3 : init_retry_interval ≤ t3 - t0) :
    init_api (attemptLogin s0 t0 (.success h)).state t1 l1
      = ⟨some h, (attemptLogin s0 t0 (.success h)).state, false⟩
    ∧ init_api (init_api (attemptLogin s0 t0 (.success h)).state t1 l1).state t2 l2
      = ⟨some h, (attemptLogin s0 t0 (.success h)).state, false⟩
    ∧ (init_api (init_api (init_api (attemptLogin s0 t0 (.success h)).state t1 l1).state
        t2 l2).state t3 l3).loginAttempted = true := by
  have e1 : init_api (attemptLogin s0 t0 (.success h)).state t1 l1
      = ⟨some h, (attemptLogin s0 t0 (.success h)).state, false⟩ := by
    simp [attemptLogin, init_api, hw1]
  refine ⟨e1, ?_, ?_⟩
  · rw [e1]
    simp [attemptLogin, init_api, hw2]
  · rw [e1]
    have e2 : init_api (attemptLogin s0 t0 (.success h)).state t2 l2
        = ⟨some h, (attemptLogin s0 t0 (.success h)).state, false⟩ := by
      simp [attemptLogin, init_api, hw2]
    rw [e2]
    have hn : ¬ (t3 - t0 < init_retry_interval) := by omega
    cases l3 <;> simp [attemptLogin, init_api, hn]

/-- C4 witness at concrete times 0, 10, 20, 60. -/
theorem init_api_session_reuse_witness :
    (10 - 0 < init_retry_interval) ∧ (20 - 0 < init_retry_interval)
    ∧ (init_retry_interval ≤ 60 - 0)
    ∧ (init_api (attemptLogin ⟨none, 0⟩ 0 (.success 7)).state 10 .failure
        = ⟨some 7, (attemptLogin ⟨none, 0⟩ 0 (.success 7)).state, false⟩
      ∧ init_api (init_api (attemptLogin ⟨none, 0⟩ 0 (.success 7)).state 10 .failure).state
          20 .failure
        = ⟨some 7, (attemptLogin ⟨none, 0⟩ 0 (.success 7)).state, false⟩
      ∧ (init_api (init_api (init_api (attemptLogin ⟨none, 0⟩ 0 (.success 7)).state
          10 .failure).state 20 .failure).state 60 .failure).loginAttempted = true) :=
  ⟨by decide, by decide, by decide,
    init_api_session_reuse ⟨none, 0⟩ 7 0 10 20 60 .failure .failure .failure
      (by decide) (by decide) (by decide)⟩

/-- C5: when the login that a (re)authentication attempt would perform
fails, `init_api` leaves the cached state (handle and timestamp) exactly
as it was and returns the previously cached handle, which is `none`
exactly when no handle was cached. -/
theorem init_api_failure_keeps_cache (s : ServerState) (now : Nat) :
    (init_api s now .failure).handle = s.api ∧ (init_api s now .failure).state = s := by
  cases hs : s.api <;> simp [init_api, attemptLogin, hs]
  split <;> simp [hs]

/-- C7: a /stats request with no date parameter is answered 400 with the
missing-date error before `init_api` is ever called: the state is
unchanged, no login is attempted, and no upstream call is made. -/
theorem get_stats_missing_date {α : Type} (s : ServerState) (now : Nat)
    (login : LoginResult) (stats : String → Except String α) :
    get_stats none s now login stats = ⟨.error missingDateError 400, s, false, 0⟩ := rfl

/-- C1: when a client handle is available, the download endpoint wraps the
upstream download in a bounded retry loop: it makes at most 3 attempts;
every attempt before the last one made failed (it stops at the first
success); if the first success is at attempt index k the loop made exactly
k+1 calls and slept the backoff delays 2^0, ..., 2^(k-1) seconds (total
2^k - 1) between attempts before returning the payload; if all 3 attempts
fail it slept the full 1s, 2s, 4s backoff schedule and answers the
download-failure error, whose message is distinct from the connectivity
error message. -/
theorem download_retry_policy (dl : Nat → Option (List Nat)) (activity_id : String)
    (fmtParam : Option String) (s : ServerState) (now : Nat) (login : LoginResult)
    (hs : (init_api s now login).handle.isSome) :
    (download_activity activity_id fmtParam s now login dl).downloadCalls ≤ 3
    ∧ (∀ i, i + 1 < (download_activity activity_id fmtParam s now login dl).downloadCalls →
        dl i = none)
    ∧ (∀ k d, k < 3 → (∀ i, i < k → dl i = none) → dl k = some d →
        (download_activity activity_id fmtParam s now login dl).downloadCalls = k + 1
        ∧ (download_activity activity_id fmtParam s now login dl).totalSleep = 2 ^ k - 1
        ∧ (download_activity activity_id fmtParam s now login dl).response
            = .file d ("activity_" ++ activity_id ++ "." ++ fmtParam.getD "fit") 200)
    ∧ ((∀ i, i < 3 → dl i = none) →
        (download_activity activity_id fmtParam s now login dl).downloadCalls = 3
        ∧ (download_activity activity_id fmtParam s now login dl).totalSleep = 1 + 2 + 4
        ∧ (download_activity activity_id fmtParam s now login dl).response
            = .error downloadFailedError 500)
    ∧ downloadFailedError ≠ connectError := by
  obtain ⟨hdl, hh⟩ := Option.isSome_iff_exists.mp hs
  rcases h0 : dl 0 with _ | d0
  case some =>
    have hr := downloadRetry_first dl d0 h0
    have hda := download_activity_success activity_id fmtParam s now login dl hdl d0 hh
      (by rw [hr])
    rw [hda, hr]
    refine ⟨by simp, ?_, ?_, ?_, by decide⟩
    · intro i hi
      simp at hi
    · intro k d hk hprev hkd
      have hk0 : k = 0 := by
        rcases Nat.eq_zero_or_pos k with hz | hpos
        · exact hz
        · exact absurd (hprev 0 hpos) (by simp [h0])
      subst hk0
      rw [h0] at hkd
      obtain rfl : d0 = d := by injection hkd
      exact ⟨rfl, rfl, rfl⟩
    · intro hall
      exact absurd (hall 0 (by omega)) (by simp [h0])
  case none =>
    rcases h1 : dl 1 with _ | d1
    case some =>
      have hr := downloadRetry_second dl d1 h0 h1
      have hda := download_activity_success activity_id fmtParam s now login dl hdl d1 hh
        (by rw [hr])
      rw [hda, hr]
      refine ⟨by simp, ?_, ?_, ?_, by decide⟩
      · intro i hi
        simp at hi
        have hi0 : i = 0 := by omega
        subst hi0
        exact h0
      · intro k d hk hprev hkd
        interval_cases k
        · rw [h0] at hkd
          exact absurd hkd (by simp)
        · rw [h1] at hkd
          obtain rfl : d1 = d := by injection hkd
          exact ⟨rfl, rfl, rfl⟩
        · exact absurd (hprev 1 (by omega)) (by simp [h1])
      · intro hall
        exact absurd (hall 1 (by omega)) (by simp [h1])
    case none =>
      rcases h2 : dl 2 with _ | d2
      case some =>
        have hr := downloadRetry_third dl d2 h0 h1 h2
        have hda := download_activity_success activity_id fmtParam s now login dl hdl d2 hh
          (by rw [hr])
        rw [hda, hr]
        refine ⟨by simp, ?_, ?_, ?_, by decide⟩
        · intro i hi
          simp at hi
          have hi01 : i = 0 ∨ i = 1 := by omega
          rcases hi01 with rfl | rfl
          · exact h0
          · exact h1
        · intro k d hk hprev hkd
          interval_cases k
          · rw [h0] at hkd
            exact absurd hkd (by simp)
          · rw [h1] at hkd
            exact absurd hkd (by simp)
          · rw [h2] at hkd
            obtain rfl : d2 = d := by injection hkd
            exact ⟨rfl, rfl, rfl⟩
        · intro hall
          exact absurd (hall 2 (by omega)) (by simp [h2])
      case none =>
        have hr := downloadRetry_exhausted dl h0 h1 h2
        have hda := download_activity_failed activity_id fmtParam s now login dl hdl hh
          (by rw [hr])
        rw [hda, hr]
        refine ⟨by simp, ?_, ?_, ?_, by decide⟩
        · intro i hi
          simp at hi
          have hi01 : i = 0 ∨ i = 1 := by omega
          rcases hi01 with rfl | rfl
          · exact h0
          · exact h1
        · intro k d hk hprev hkd
          interval_cases k
          · rw [h0] at hkd
            exact absurd hkd (by simp)
          · rw [h1] at hkd
            exact absurd hkd (by simp)
          · rw [h2] at hkd
            exact absurd hkd (by simp)
        · intro hall
          exact ⟨rfl, rfl, rfl⟩

/-- C1 witness: a concrete state with a cached handle and an upstream
download that always fails. -/
theorem download_retry_policy_witness :
    ((init_api ⟨some 1, 0⟩ 0 .failure).handle.isSome)
    ∧ (download_activity "A" none ⟨some 1, 0⟩ 0 .failure (fun _ => none)).downloadCalls ≤ 3 :=
  ⟨by decide,
    (download_retry_policy (fun _ => none) "A" none ⟨some 1, 0⟩ 0 .failure (by decide)).1⟩

/-- C2: with a client handle available, an upstream download that fails on
the first two attempts and succeeds on the third makes the endpoint return
the successful payload as the attachment, after sleeping exactly the two
backoff delays 1s then 2s before the success; an upstream download that
fails on all three attempts makes the endpoint return the
download-exhausted error, which is not a file payload. -/
theorem download_third_try_and_exhaustion (dl dl2 : Nat → Option (List Nat))
    (d : List Nat) (activity_id : String) (fmtParam : Option String) (s : ServerState)
    (now : Nat) (login : LoginResult)
    (hs : (init_api s now login).handle.isSome)
    (h0 : dl 0 = none) (h1 : dl 1 = none) (h2 : dl 2 = some d)
    (hall : ∀ i, i < 3 → dl2 i = none) :
    (download_activity activity_id fmtParam s now login dl).response
      = .file d ("activity_" ++ activity_id ++ "." ++ fmtParam.getD "fit") 200
    ∧ (download_activity activity_id fmtParam s now login dl).totalSleep = 1 + 2
    ∧ (download_activity activity_id fmtParam s now login dl2).response
      = .error downloadFailedError 500
    ∧ (∀ data name st,
        (download_activity activity_id fmtParam s now login dl2).response
          ≠ .file data name st) := by
  obtain ⟨hdl, hh⟩ := Option.isSome_iff_exists.mp hs
  have hr := downloadRetry_third dl d h0 h1 h2
  have hda := download_activity_success activity_id fmtParam s now login dl hdl d hh
    (by rw [hr])
  have hr2 := downloadRetry_exhausted dl2 (hall 0 (by omega)) (hall 1 (by omega))
    (hall 2 (by omega))
  have hda2 := download_activity_failed activity_id fmtParam s now login dl2 hdl hh
    (by rw [hr2])
  rw [hda, hda2, hr]
  refine ⟨rfl, rfl, rfl, ?_⟩
  intro data name st
  simp

/-- C2 witness: download succeeding only at attempt index 2 versus always
failing. -/
theorem download_third_try_and_exhaustion_witness :
    ((init_api ⟨some 1, 0⟩ 0 .failure).handle.isSome)
    ∧ ((fun i => if i = 2 then some [9] else none) : Nat → Option (List Nat)) 0 = none
    ∧ (download_activity "A" none ⟨some 1, 0⟩ 0 .failure
        (fun i => if i = 2 then some [9] else none)).response
      = .file [9] ("activity_" ++ "A" ++ "." ++ (none : Option String).getD "fit") 200 :=
  ⟨by decide, by decide,
    (download_third_try_and_exhaustion (fun i => if i = 2 then some [9] else none)
      (fun _ => none) [9] "A" none ⟨some 1, 0⟩ 0 .failure (by decide) (by decide)
      (by decide) (by decide) (fun i _ => rfl)).1⟩

/-- C3: when no handle is cached and the login fails, every data endpoint
(stats with a date, activities list, activity detail, download) answers
the fixed connectivity error with status 500, leaves the state unchanged,
and makes no upstream data call (the only upstream contact is the failed
login attempt). -/
theorem auth_failure_no_data {α : Type} (s : ServerState) (now : Nat)
    (d : String) (stats : String → Except String α) (acts : Int → Int → Except String α)
    (getAct : String → Except String α) (startP limitP : Option String)
    (aid : String) (fmtParam : Option String) (dl : Nat → Option (List Nat))
    (hd : d ≠ "") (hapi : s.api = none) :
    get_stats (some d) s now .failure stats = ⟨.error connectError 500, s, true, 0⟩
    ∧ get_activities startP limitP s now .failure acts = ⟨.error connectError 500, s, true, 0⟩
    ∧ get_activity_details aid s now .failure getAct = ⟨.error connectError 500, s, true, 0⟩
    ∧ download_activity aid fmtParam s now .failure dl
      = ⟨.error connectError 500, s, true, 0, 0⟩ := by
  have hi : init_api s now .failure = ⟨none, s, true⟩ := by
    simp [init_api, attemptLogin, hapi]
  refine ⟨?_, ?_, ?_, ?_⟩ <;>
    simp [get_stats, get_activities, get_activity_details, download_activity, hd, hi]

/-- C3 witness at the empty starting state. -/
theorem auth_failure_no_data_witness :
    ("2024-01-01" ≠ "") ∧ ((⟨none, 0⟩ : ServerState).api = none)
    ∧ get_stats (some "2024-01-01") ⟨none, 0⟩ 0 .failure (fun _ => (.ok 0 : Except String Nat))
      = ⟨.error connectError 500, ⟨none, 0⟩, true, 0⟩ :=
  ⟨by decide, rfl,
    (auth_failure_no_data ⟨none, 0⟩ 0 "2024-01-01" (fun _ => (.ok 0 : Except String Nat))
      (fun _ _ => .ok 0) (fun _ => .ok 0) none none "A" none (fun _ => none)
      (by decide) rfl).1⟩

/-- C6: the health probe answers 200 healthy/authenticated without any
login attempt when a handle is cached; with no cached handle it performs
exactly one inline login attempt and answers 200 healthy/reauthenticated
on success (caching the new handle) or 503 unhealthy/unauthenticated on
failure. -/
theorem health_check_behavior (s : ServerState) (now : Nat) (login : LoginResult) :
    (s.api.isSome →
      health_check s now login
        = ⟨.json ⟨"healthy", "authenticated", "garmin-api"⟩ 200, s, false⟩)
    ∧ (s.api = none →
      (health_check s now login).loginAttempted = true
      ∧ (∀ h, login = .success h →
          health_check s now login
            = ⟨.json ⟨"healthy", "reauthenticated", "garmin-api"⟩ 200, ⟨some h, now⟩, true⟩)
      ∧ (login = .failure →
          health_check s now login
            = ⟨.json ⟨"unhealthy", "unauthenticated", "garmin-api"⟩ 503, s, true⟩)) := by
  constructor
  · intro h
    obtain ⟨a, ha⟩ := Option.isSome_iff_exists.mp h
    simp [health_check, ha]
  · intro hn
    cases login with
    | success h => simp [health_check, init_api, attemptLogin, hn]
    | failure => simp [health_check, init_api, attemptLogin, hn]

/-- C6 witness: failed reauthentication from the empty state. -/
theorem health_check_behavior_witness :
    ((⟨none, 5⟩ : ServerState).api = none)
    ∧ health_check ⟨none, 5⟩ 9 .failure
      = ⟨.json ⟨"unhealthy", "unauthenticated", "garmin-api"⟩ 503, ⟨none, 5⟩, true⟩ :=
  ⟨rfl, ((health_check_behavior ⟨none, 5⟩ 9 .failure).2 rfl).2.2 rfl⟩

/-- C8: with a client handle available, a successful upstream activity
detail fetch is passed through unchanged: the endpoint responds 200 with
exactly the upstream object after exactly one upstream data call. -/
theorem activity_details_passthrough {α : Type} (activity_id : String) (s : ServerState)
    (now : Nat) (login : LoginResult) (getActivity : String → Except String α) (body : α)
    (hs : (init_api s now login).handle.isSome) (hok : getActivity activity_id = .ok body) :
    (get_activity_details activity_id s now login getActivity).response = .json body 200
    ∧ (get_activity_details activity_id s now login getActivity).dataCalls = 1 := by
  obtain ⟨hdl, hh⟩ := Option.isSome_iff_exists.mp hs
  simp [get_activity_details, hh, hok]

/-- C8 witness with a concrete upstream object. -/
theorem activity_details_passthrough_witness :
    ((init_api ⟨some 1, 0⟩ 0 .failure).handle.isSome)
    ∧ ((fun _ => (.ok 42 : Except String Nat)) "A" = .ok 42)
    ∧ (get_activity_details "A" ⟨some 1, 0⟩ 0 .failure
        (fun _ => (.ok 42 : Except String Nat))).response = .json 42 200 :=
  ⟨by decide, rfl,
    (activity_details_passthrough "A" ⟨some 1, 0⟩ 0 .failure
      (fun _ => (.ok 42 : Except String Nat)) 42 (by decide) rfl).1⟩

/-- C9 counterexample: with a handle already cached (so the
connectivity-check branch cannot be taken), a stats request whose upstream
fetch raises with exactly the connectivity message makes the endpoint pass
that message through with status 500, so the client receives a response
equal to the connectivity error response even after a successful login. -/
theorem connect_error_after_login_counterexample :
    ((⟨some 1, 0⟩ : ServerState).api.isSome)
    ∧ (get_stats (some "2024-01-01") ⟨some 1, 0⟩ 0 .failure
        (fun _ => (.error connectError : Except String Nat))).response
      = .error connectError 500 := ⟨rfl, rfl⟩

/-- C9 amended: once a handle is cached it is never cleared — after any
sequence of requests the cached handle is still present — and a further
request whose upstream operations do not themselves raise with exactly the
connectivity message never yields the connectivity error response. -/
theorem api_never_cleared_after_login {α : Type} (s : ServerState)
    (reqs : List (Request α)) (req : Request α)
    (h : s.api.isSome) (hup : upstreamAvoidsConnectMsg req) :
    (runRequests s reqs).api.isSome
    ∧ requestConnectError (runRequests s reqs) req = false :=
  ⟨runRequests_isSome s reqs h,
    requestConnectError_false (runRequests s reqs) req (runRequests_isSome s reqs h) hup⟩

/-- C9 amended witness: a health probe followed by a stats request with a
well-behaved upstream. -/
theorem api_never_cleared_after_login_witness :
    ((⟨some 1, 0⟩ : ServerState).api.isSome)
    ∧ upstreamAvoidsConnectMsg
        (Request.stats (α := Nat) (some "2024-01-01") 10 .failure (fun _ => .ok 0))
    ∧ (runRequests (α := Nat) ⟨some 1, 0⟩ [Request.health 5 .failure]).api.isSome
    ∧ requestConnectError (runRequests (α := Nat) ⟨some 1, 0⟩ [Request.health 5 .failure])
        (Request.stats (some "2024-01-01") 10 .failure (fun _ => .ok 0)) = false :=
  ⟨rfl, fun x => by simp,
    (api_never_cleared_after_login ⟨some 1, 0⟩ [Request.health 5 .failure]
      (Request.stats (some "2024-01-01") 10 .failure (fun _ => .ok 0))
      rfl (fun x => by simp)).1,
    (api_never_cleared_after_login ⟨some 1, 0⟩ [Request.health 5 .failure]
      (Request.stats (some "2024-01-01") 10 .failure (fun _ => .ok 0))
      rfl (fun x => by simp)).2⟩

/-- C10: an /activities request whose start or limit parameter is present
but fails integer parsing is not rejected: it behaves exactly as if that
parameter were absent, the value silently falls back to its default (0 for
start, 10 for limit), and with a handle available the upstream call
proceeds with the default values. -/
theorem activities_unparseable_params_default {α : Type} (v w : String)
    (startP limitP : Option String) (s : ServerState) (now : Nat) (login : LoginResult)
    (acts : Int → Int → Except String α)
    (hv : pyInt v = none) (hw : pyInt w = none)
    (hs : (init_api s now login).handle.isSome) :
    get_activities (some v) limitP s now login acts
      = get_activities none limitP s now login acts
    ∧ get_activities startP (some w) s now login acts
      = get_activities startP none s now login acts
    ∧ argGetInt (some v) 0 = 0 ∧ argGetInt (some w) 10 = 10
    ∧ (get_activities (some v) (some w) s now login acts).dataCalls = 1
    ∧ (∀ body, acts 0 10 = .ok body →
        (get_activities (some v) (some w) s now login acts).response = .json body 200) := by
  obtain ⟨hdl, hh⟩ := Option.isSome_iff_exists.mp hs
  refine ⟨?_, ?_, ?_, ?_, ?_, ?_⟩
  · simp [get_activities, argGetInt, hv]
  · simp [get_activities, argGetInt, hw]
  · simp [argGetInt, hv]
  · simp [argGetInt, hw]
  · simp only [get_activities, argGetInt, hv, hw, Option.getD_none, hh]
    cases hacts : acts 0 10 <;> simp [hacts]
  · intro body hok
    simp [get_activities, argGetInt, hv, hw, hh, hok]

/-- C10 witness with unparseable start and limit strings. -/
theorem activities_unparseable_params_default_witness :
    pyInt "abc" = none ∧ pyInt "12x" = none
    ∧ ((init_api ⟨some 1, 0⟩ 0 .failure).handle.isSome)
    ∧ (get_activities (some "abc") (some "12x") ⟨some 1, 0⟩ 0 .failure
        (fun _ _ => (.ok 0 : Except String Nat))).dataCalls = 1 :=
  ⟨by decide, by decide, by decide,
    (activities_unparseable_params_default "abc" "12x" (some "abc") (some "12x")
      ⟨some 1, 0⟩ 0 .failure (fun _ _ => (.ok 0 : Except String Nat))
      (by decide) (by decide) (by decide)).2.2.2.2.1⟩

end GarminWrapper
